import Mathlib

/-!
Verification of the snapshot aggregator in `src/sysinfo.py`.

The program queries five independent OS-level data sources (system identity,
CPU, memory, disk, GPU) and assembles the results into one nested dictionary.
We embed the Python module shallowly: Python dictionaries, lists, numbers and
strings become the inductive type `Val`; each external data source becomes a
field of an `Env` record (fallible sources are `Except String`-valued, since
any Python call may raise); each function of the module becomes a Lean
function over `Env`.  Python floats are modelled as rationals, and Python's
`round(x, 2)` as round-half-to-even at two decimal places.
-/

/-- Values of the Python data model: `vnull` is `None`, `vint` an `int`,
`vnum` a float (modelled as a rational), `vstr` a `str`, `vdict` a dict with
string keys in insertion order, `vlist` a list. -/
inductive Val where
  | vnull : Val
  | vint : Int → Val
  | vnum : ℚ → Val
  | vstr : String → Val
  | vdict : List (String × Val) → Val
  | vlist : List Val → Val

/-- First value bound to `key` in an association list (Python dict lookup). -/
def assocFind : List (String × Val) → String → Option Val
  | [], _ => none
  | (k, v) :: rest, key => if k = key then some v else assocFind rest key

/-- Dictionary lookup on a `Val`; `none` when the key is absent or the value
is not a dictionary. -/
def vget (v : Val) (key : String) : Option Val :=
  match v with
  | .vdict fs => assocFind fs key
  | _ => none

/-- Keys of a dictionary value, in insertion order. -/
def keysOf (v : Val) : List String :=
  match v with
  | .vdict fs => fs.map Prod.fst
  | _ => []

/-- Round a rational to the nearest integer, ties to even: the semantics of
Python's `round` on an exact value. -/
def roundHalfEven (q : ℚ) : ℤ :=
  if q - ⌊q⌋ < 1 / 2 then ⌊q⌋
  else if 1 / 2 < q - ⌊q⌋ then ⌊q⌋ + 1
  else if 2 ∣ ⌊q⌋ then ⌊q⌋ else ⌊q⌋ + 1

/-- Python's `round(x, 2)`: round to two decimal places, ties to even. -/
def round2 (q : ℚ) : ℚ :=
  (roundHalfEven (100 * q) : ℚ) / 100

/-- Embeds `bytes_to_gb`: convert bytes to gigabytes rounded to 2 decimal
places (`round(bytes_value / (1024 ** 3), 2)`). -/
def bytes_to_gb (bytes_value : ℤ) : ℚ :=
  round2 ((bytes_value : ℚ) / 1024 ^ 3)

/-- Result of `platform.uname()`: six strings. -/
structure Uname where
  system : String
  node : String
  release : String
  version : String
  machine : String
  processor : String

/-- Result of `psutil.virtual_memory()`: byte counters and a percentage. -/
structure VirtualMemory where
  total : ℕ
  available : ℕ
  used : ℕ
  percent : ℚ

/-- Result of `psutil.disk_usage(path)`: byte counters and a percentage. -/
structure DiskUsage where
  total : ℕ
  used : ℕ
  free : ℕ
  percent : ℚ

/-- One device record from `GPUtil.getGPUs()`: memory values are in MB,
`load` is a fraction in [0, 1]. -/
structure Gpu where
  id : ℤ
  name : String
  memoryTotal : ℚ
  memoryUsed : ℚ
  memoryFree : ℚ
  load : ℚ
  temperature : ℚ

/-- The environment: every external data source the module reads.  Sources
whose exceptions the module does not catch but that can raise in Python are
`Except String`-valued; `disk_usage` and `gpus` are also fallible but the
module catches their exceptions. -/
structure Env where
  gpu_available : Bool
  cpuinfo_available : Bool
  uname : Uname
  cpu_count_physical : Option ℕ
  cpu_count_logical : Option ℕ
  cpu_percent : ℚ
  cpu_freq : Option ℚ
  cpuinfo_brand : Except String (Option String)
  platform_processor : String
  platform_system : String
  virtual_memory : Except String VirtualMemory
  disk_usage : String → Except String DiskUsage
  gpus : Except String (List Gpu)

/-- Embeds `get_system_info`: the six `platform.uname()` strings under fixed
keys. -/
def get_system_info (env : Env) : Val :=
  .vdict [
    ("system_name", .vstr env.uname.system),
    ("node_name", .vstr env.uname.node),
    ("os_release", .vstr env.uname.release),
    ("os_version", .vstr env.uname.version),
    ("machine_type", .vstr env.uname.machine),
    ("processor", .vstr env.uname.processor)]

/-- The processor-name fallback chain of `get_cpu_info`: with `cpuinfo`
available and succeeding, `info.get("brand_raw", "Unknown")`; on failure or
without `cpuinfo`, `platform.processor() or "Unknown"`. -/
def processorName (env : Env) : String :=
  if env.cpuinfo_available then
    match env.cpuinfo_brand with
    | .ok (some brand) => brand
    | .ok none => "Unknown"
    | .error _ =>
        if env.platform_processor = "" then "Unknown" else env.platform_processor
  else
    if env.platform_processor = "" then "Unknown" else env.platform_processor

/-- A `psutil.cpu_count` result as stored in the dict: the int itself, or
Python `None` when psutil cannot determine the count. -/
def optCount : Option ℕ → Val
  | some n => .vint n
  | none => .vnull

/-- Embeds `get_cpu_info`: core counts and usage, then `cpu_frequency_mhz`
only when `psutil.cpu_freq()` returns a (truthy) object, then the processor
name. -/
def get_cpu_info (env : Env) : Val :=
  let base := [
    ("physical_cores", optCount env.cpu_count_physical),
    ("logical_cores", optCount env.cpu_count_logical),
    ("cpu_usage_percent", Val.vnum env.cpu_percent)]
  let withFreq :=
    match env.cpu_freq with
    | some f => base ++ [("cpu_frequency_mhz", Val.vnum (round2 f))]
    | none => base
  Val.vdict (withFreq ++ [("processor_name", Val.vstr (processorName env))])

/-- The dictionary `get_memory_info` builds from a `virtual_memory` result. -/
def memDict (mem : VirtualMemory) : Val :=
  .vdict [
    ("total_gb", .vnum (bytes_to_gb mem.total)),
    ("available_gb", .vnum (bytes_to_gb mem.available)),
    ("used_gb", .vnum (bytes_to_gb mem.used)),
    ("utilization_percent", .vnum mem.percent)]

/-- Embeds `get_memory_info`: no try/except, so an exception from
`psutil.virtual_memory()` propagates. -/
def get_memory_info (env : Env) : Except String Val :=
  match env.virtual_memory with
  | .error e => .error e
  | .ok mem => .ok (memDict mem)

/-- The root volume path chosen by `get_disk_info`. -/
def rootPath (env : Env) : String :=
  if env.platform_system = "Windows" then "C:\\" else "/"

/-- Embeds `get_disk_info`: the whole body is inside try/except, so any
exception becomes `{"error": str(e)}`. -/
def get_disk_info (env : Env) : Val :=
  match env.disk_usage (rootPath env) with
  | .ok disk => .vdict [
      ("total_gb", .vnum (bytes_to_gb disk.total)),
      ("used_gb", .vnum (bytes_to_gb disk.used)),
      ("free_gb", .vnum (bytes_to_gb disk.free)),
      ("utilization_percent", .vnum disk.percent)]
  | .error e => .vdict [("error", .vstr e)]

/-- One entry of the GPU device list built by `get_gpu_info`. -/
def gpuEntry (g : Gpu) : Val :=
  .vdict [
    ("id", .vint g.id),
    ("name", .vstr g.name),
    ("memory_total_mb", .vnum (round2 g.memoryTotal)),
    ("memory_used_mb", .vnum (round2 g.memoryUsed)),
    ("memory_free_mb", .vnum (round2 g.memoryFree)),
    ("gpu_utilization_percent", .vnum (g.load * 100)),
    ("temperature_c", .vnum g.temperature)]

/-- Embeds `get_gpu_info`: fixed status record when GPUtil is absent; then
`getGPUs()` inside try/except, with a status record for the empty list and
for an exception, and the mapped device list otherwise. -/
def get_gpu_info (env : Env) : Val :=
  if env.gpu_available = false then
    .vdict [("status", .vstr "GPUtil not installed or no NVIDIA GPU detected")]
  else
    match env.gpus with
    | .error e => .vdict [("status", .vstr ("Error getting GPU info: " ++ e))]
    | .ok [] => .vdict [("status", .vstr "No NVIDIA GPU detected")]
    | .ok (g :: rest) => .vlist ((g :: rest).map gpuEntry)

/-- Embeds `get_sysinfo`: assembles the five sub-query results.  Only
`get_memory_info` can raise in this model (its psutil call is not guarded);
the dict literal propagates that exception. -/
def get_sysinfo (env : Env) : Except String Val :=
  match get_memory_info env with
  | .error e => .error e
  | .ok memv => .ok (.vdict [
      ("system", get_system_info env),
      ("cpu", get_cpu_info env),
      ("memory", memv),
      ("disk", get_disk_info env),
      ("gpu", get_gpu_info env)])

/-- A typical Linux host with no GPU package and no cpuinfo package. -/
def baseEnv : Env where
  gpu_available := false
  cpuinfo_available := false
  uname := ⟨"Linux", "host", "6.1.0", "#1 SMP", "x86_64", "x86_64"⟩
  cpu_count_physical := some 4
  cpu_count_logical := some 8
  cpu_percent := 25
  cpu_freq := some 2400
  cpuinfo_brand := .ok none
  platform_processor := "x86_64"
  platform_system := "Linux"
  virtual_memory := .ok ⟨17179869184, 8589934592, 8589934592, 50⟩
  disk_usage := fun _ => .ok ⟨107374182400, 53687091200, 53687091200, 50⟩
  gpus := .ok []

/-- The snapshot `get_sysinfo` produces on `baseEnv`, written out. -/
def baseSnap : Val :=
  .vdict [
    ("system", .vdict [
      ("system_name", .vstr "Linux"),
      ("node_name", .vstr "host"),
      ("os_release", .vstr "6.1.0"),
      ("os_version", .vstr "#1 SMP"),
      ("machine_type", .vstr "x86_64"),
      ("processor", .vstr "x86_64")]),
    ("cpu", .vdict [
      ("physical_cores", .vint 4),
      ("logical_cores", .vint 8),
      ("cpu_usage_percent", .vnum 25),
      ("cpu_frequency_mhz", .vnum 2400),
      ("processor_name", .vstr "x86_64")]),
    ("memory", .vdict [
      ("total_gb", .vnum 16),
      ("available_gb", .vnum 8),
      ("used_gb", .vnum 8),
      ("utilization_percent", .vnum 50)]),
    ("disk", .vdict [
      ("total_gb", .vnum 100),
      ("used_gb", .vnum 50),
      ("free_gb", .vnum 50),
      ("utilization_percent", .vnum 50)]),
    ("gpu", .vdict [
      ("status", .vstr "GPUtil not installed or no NVIDIA GPU detected")])]

/-- An environment identical to `baseEnv` except that the memory source
raises. -/
def envMemFail : Env :=
  { baseEnv with virtual_memory := .error "simulated failure" }

/-- An environment identical to `baseEnv` except that the disk-usage source
raises. -/
def envDiskFail : Env :=
  { baseEnv with disk_usage := fun _ => .error "denied" }

/-- An environment with GPUtil importable but zero devices detected. -/
def envGpuEmpty : Env :=
  { baseEnv with gpu_available := true }

/-- One concrete GPU device record. -/
def gpuA : Gpu :=
  ⟨0, "NVIDIA GeForce RTX 3080", 10240, 2048, 8192, 1 / 4, 65⟩

/-- An environment with one GPU device detected. -/
def envGpu : Env :=
  { baseEnv with gpu_available := true, gpus := .ok [gpuA] }

/-- An environment with the cpuinfo package installed and succeeding. -/
def envBrand : Env :=
  { baseEnv with cpuinfo_available := true,
                 cpuinfo_brand := .ok (some "Intel Core i7") }

/-- An environment where psutil cannot determine the physical core count. -/
def envNoCount : Env :=
  { baseEnv with cpu_count_physical := none }

/-- The integer `roundHalfEven q` lies within one half of `q`. -/
theorem roundHalfEven_abs_le (q : ℚ) : |(roundHalfEven q : ℚ) - q| ≤ 1 / 2 := by
  have h0 : (⌊q⌋ : ℚ) ≤ q := Int.floor_le q
  have h1 : q < ⌊q⌋ + 1 := Int.lt_floor_add_one q
  unfold roundHalfEven
  split_ifs with hA hB hC
  · rw [abs_le]; constructor <;> linarith
  · rw [abs_le]; push_cast; constructor <;> linarith
  · rw [abs_le]; constructor <;> linarith
  · rw [abs_le]; push_cast; constructor <;> linarith

/-- Two-decimal rounding moves a rational by at most half a hundredth. -/
theorem round2_abs_le (q : ℚ) : |round2 q - q| ≤ 1 / 200 := by
  have h := roundHalfEven_abs_le (100 * q)
  unfold round2
  have hq : (roundHalfEven (100 * q) : ℚ) / 100 - q
      = ((roundHalfEven (100 * q) : ℚ) - 100 * q) / 100 := by ring
  rw [hq, abs_div, abs_of_pos (by norm_num : (0 : ℚ) < 100)]
  linarith

/-- The snapshot computed on `baseEnv`, evaluated. -/
theorem get_sysinfo_baseEnv : get_sysinfo baseEnv = Except.ok baseSnap := by
  norm_num [get_sysinfo, get_memory_info, memDict, get_system_info,
    get_cpu_info, get_disk_info, get_gpu_info, processorName, optCount,
    rootPath, baseEnv, baseSnap, bytes_to_gb, round2, roundHalfEven]
  decide

/-- C1: the claim states that `get_sysinfo` never signals an error to its
caller, in every environment, including those where the identity, CPU or
memory data source raises.  This is false: `get_memory_info` has no
try/except, so an exception from the memory source escapes `get_sysinfo`.
On `envMemFail` the whole operation returns the error instead of a
snapshot. -/
theorem C1_counterexample :
    get_sysinfo envMemFail = Except.error "simulated failure" := rfl

/-- C1 (amended): `get_sysinfo` returns a snapshot whenever the memory
source returns data — disk and GPU failures are isolated in-band, being the
only guarded sub-queries — but an exception raised by the memory source
propagates out of `get_sysinfo` unchanged. -/
theorem C1_amended (env : Env) :
    (∀ m, env.virtual_memory = Except.ok m → (get_sysinfo env).isOk = true) ∧
    (∀ e, env.virtual_memory = Except.error e →
      get_sysinfo env = Except.error e) := by
  constructor
  · intro m hm
    unfold get_sysinfo get_memory_info
    rw [hm]
    rfl
  · intro e he
    unfold get_sysinfo get_memory_info
    rw [he]

/-- C1 witness: on the healthy base environment the snapshot succeeds. -/
theorem C1_witness : (get_sysinfo baseEnv).isOk = true :=
  (C1_amended baseEnv).1 ⟨17179869184, 8589934592, 8589934592, 50⟩ rfl

/-- C2: `get_disk_info` never propagates an exception: when the disk-usage
call raises `e` it returns exactly `{"error": str(e)}` with no numeric
fields, and otherwise it returns the four gigabyte/percent fields. -/
theorem C2_disk_isolation (env : Env) :
    (∀ e, env.disk_usage (rootPath env) = Except.error e →
      get_disk_info env = Val.vdict [("error", Val.vstr e)]) ∧
    (∀ d, env.disk_usage (rootPath env) = Except.ok d →
      get_disk_info env = Val.vdict [
        ("total_gb", Val.vnum (bytes_to_gb d.total)),
        ("used_gb", Val.vnum (bytes_to_gb d.used)),
        ("free_gb", Val.vnum (bytes_to_gb d.free)),
        ("utilization_percent", Val.vnum d.percent)]) := by
  constructor
  · intro e he
    unfold get_disk_info
    rw [he]
  · intro d hd
    unfold get_disk_info
    rw [hd]

/-- C2 witness: a failing disk source yields exactly the error record. -/
theorem C2_witness :
    get_disk_info envDiskFail = Val.vdict [("error", Val.vstr "denied")] :=
  (C2_disk_isolation envDiskFail).1 "denied" rfl

/-- C3: with GPUtil absent, `get_gpu_info` returns exactly the fixed status
record, and never a device list. -/
theorem C3_gpu_absent (env : Env) (h : env.gpu_available = false) :
    get_gpu_info env =
      Val.vdict
        [("status", Val.vstr "GPUtil not installed or no NVIDIA GPU detected")] ∧
    ∀ l, get_gpu_info env ≠ Val.vlist l := by
  have hg : get_gpu_info env =
      Val.vdict
        [("status", Val.vstr "GPUtil not installed or no NVIDIA GPU detected")] := by
    unfold get_gpu_info
    rw [h]
    rfl
  exact ⟨hg, fun l hl => by rw [hg] at hl; exact Val.noConfusion hl⟩

/-- C3 witness: the base environment has no GPUtil, so the sentinel status
record is returned. -/
theorem C3_witness :
    get_gpu_info baseEnv =
      Val.vdict
        [("status", Val.vstr "GPUtil not installed or no NVIDIA GPU detected")] :=
  (C3_gpu_absent baseEnv rfl).1

/-- C4: with GPUtil present, zero enumerated devices produce a status record
(not an empty list), and an exception during enumeration is converted into a
status record embedding the error text. -/
theorem C4_gpu_degraded (env : Env) (h : env.gpu_available = true) :
    (env.gpus = Except.ok [] →
      get_gpu_info env = Val.vdict [("status", Val.vstr "No NVIDIA GPU detected")]) ∧
    (∀ e, env.gpus = Except.error e →
      get_gpu_info env =
        Val.vdict [("status", Val.vstr ("Error getting GPU info: " ++ e))]) := by
  constructor
  · intro h0
    unfold get_gpu_info
    rw [h, h0]
    rfl
  · intro e he
    unfold get_gpu_info
    rw [h, he]
    rfl

/-- C4 witness: GPUtil present but zero devices gives the no-device status
record. -/
theorem C4_witness :
    get_gpu_info envGpuEmpty =
      Val.vdict [("status", Val.vstr "No NVIDIA GPU detected")] :=
  (C4_gpu_degraded envGpuEmpty rfl).1 rfl

/-- C5: `bytes_to_gb 1073741824 = 1`, `bytes_to_gb 0 = 0`, and for every
non-negative integer the result is the input divided by 1024³ rounded to
exactly two decimal places: it is an integer multiple of 1/100 and differs
from the exact quotient by at most half a hundredth. -/
theorem C5_bytes_to_gb :
    bytes_to_gb 1073741824 = 1 ∧ bytes_to_gb 0 = 0 ∧
    ∀ b : ℕ, (∃ k : ℤ, bytes_to_gb b = (k : ℚ) / 100) ∧
      |bytes_to_gb b - (b : ℚ) / 1024 ^ 3| ≤ 1 / 200 := by
  refine ⟨?_, ?_, fun b => ⟨⟨roundHalfEven (100 * (((b : ℤ) : ℚ) / 1024 ^ 3)), rfl⟩, ?_⟩⟩
  · norm_num [bytes_to_gb, round2, roundHalfEven]
  · norm_num [bytes_to_gb, round2, roundHalfEven]
  · have h := round2_abs_le (((b : ℤ) : ℚ) / 1024 ^ 3)
    unfold bytes_to_gb
    push_cast at h ⊢
    exact h

/-- C7: with GPUtil present and at least one device enumerated,
`get_gpu_info` returns the mapped device list, and every entry carries the
MB values rounded to two decimals (a genuine two-decimal rounding, within
half a hundredth), the load fraction times 100, and the temperature passed
through unrounded. -/
theorem C7_gpu_entries (env : Env) (g : Gpu) (rest : List Gpu)
    (h : env.gpu_available = true) (hg : env.gpus = Except.ok (g :: rest)) :
    get_gpu_info env = Val.vlist ((g :: rest).map gpuEntry) ∧
    ∀ x : Gpu,
      vget (gpuEntry x) "memory_total_mb" = some (Val.vnum (round2 x.memoryTotal)) ∧
      vget (gpuEntry x) "memory_used_mb" = some (Val.vnum (round2 x.memoryUsed)) ∧
      vget (gpuEntry x) "memory_free_mb" = some (Val.vnum (round2 x.memoryFree)) ∧
      vget (gpuEntry x) "gpu_utilization_percent" = some (Val.vnum (x.load * 100)) ∧
      vget (gpuEntry x) "temperature_c" = some (Val.vnum x.temperature) ∧
      |round2 x.memoryTotal - x.memoryTotal| ≤ 1 / 200 ∧
      |round2 x.memoryUsed - x.memoryUsed| ≤ 1 / 200 ∧
      |round2 x.memoryFree - x.memoryFree| ≤ 1 / 200 := by
  refine ⟨?_, fun x => ⟨rfl, rfl, rfl, rfl, rfl,
    round2_abs_le _, round2_abs_le _, round2_abs_le _⟩⟩
  unfold get_gpu_info
  rw [h, hg]
  rfl

/-- C7 witness: on an environment with one concrete device, the device list
is returned. -/
theorem C7_witness : get_gpu_info envGpu = Val.vlist ([gpuA].map gpuEntry) :=
  (C7_gpu_entries envGpu gpuA [] rfl rfl).1

/-- C6: the claim states the CPU record uses keys named `usage_percent` and
`frequency_mhz`.  This is false: on `baseEnv` the snapshot's CPU record has
no such keys; the code names them `cpu_usage_percent` and
`cpu_frequency_mhz`. -/
theorem C6_counterexample :
    Except.map (fun v => vget v "cpu") (get_sysinfo baseEnv)
      = Except.ok (some (get_cpu_info baseEnv)) ∧
    vget (get_cpu_info baseEnv) "usage_percent" = none ∧
    vget (get_cpu_info baseEnv) "frequency_mhz" = none ∧
    vget (get_cpu_info baseEnv) "cpu_usage_percent" = some (Val.vnum 25) ∧
    vget (get_cpu_info baseEnv) "cpu_frequency_mhz"
      = some (Val.vnum (round2 2400)) :=
  ⟨rfl, rfl, rfl, rfl, rfl⟩

/-- C6 (amended): every snapshot has exactly the top-level keys `system`,
`cpu`, `memory`, `disk`, `gpu`, and the CPU record has the keys
`physical_cores`, `logical_cores`, `cpu_usage_percent`,
`cpu_frequency_mhz` (this one only when the platform exposes a frequency)
and `processor_name` — the usage and frequency keys carry a `cpu_` prefix,
unlike the spec's data model. -/
theorem C6_amended (env : Env) (v : Val) (h : get_sysinfo env = Except.ok v) :
    keysOf v = ["system", "cpu", "memory", "disk", "gpu"] ∧
    vget v "cpu" = some (get_cpu_info env) ∧
    (env.cpu_freq = none → keysOf (get_cpu_info env) =
      ["physical_cores", "logical_cores", "cpu_usage_percent",
       "processor_name"]) ∧
    (∀ f, env.cpu_freq = some f → keysOf (get_cpu_info env) =
      ["physical_cores", "logical_cores", "cpu_usage_percent",
       "cpu_frequency_mhz", "processor_name"]) := by
  have hcpu0 : env.cpu_freq = none → keysOf (get_cpu_info env) =
      ["physical_cores", "logical_cores", "cpu_usage_percent",
       "processor_name"] := by
    intro hf
    unfold get_cpu_info
    rw [hf]
    rfl
  have hcpu1 : ∀ f, env.cpu_freq = some f → keysOf (get_cpu_info env) =
      ["physical_cores", "logical_cores", "cpu_usage_percent",
       "cpu_frequency_mhz", "processor_name"] := by
    intro f hf
    unfold get_cpu_info
    rw [hf]
    rfl
  unfold get_sysinfo get_memory_info at h
  cases hv : env.virtual_memory with
  | error e =>
    rw [hv] at h
    cases h
  | ok m =>
    rw [hv] at h
    injection h with h2
    subst h2
    exact ⟨rfl, rfl, hcpu0, hcpu1⟩

/-- C6 witness: the base snapshot has the five top-level keys and its `cpu`
entry is the CPU record. -/
theorem C6_witness :
    keysOf baseSnap = ["system", "cpu", "memory", "disk", "gpu"] ∧
    vget baseSnap "cpu" = some (get_cpu_info baseEnv) :=
  ⟨(C6_amended baseEnv baseSnap get_sysinfo_baseEnv).1,
   (C6_amended baseEnv baseSnap get_sysinfo_baseEnv).2.1⟩

/-- C8: the processor-name fallback chain: the cpuinfo brand string when the
optional package is installed and succeeds with a brand; the platform
processor string (or "Unknown" when that is empty) when the package is
missing or raises. -/
theorem C8_processor_fallback (env : Env) :
    vget (get_cpu_info env) "processor_name"
      = some (Val.vstr (processorName env)) ∧
    (∀ b, env.cpuinfo_available = true →
      env.cpuinfo_brand = Except.ok (some b) → processorName env = b) ∧
    (env.cpuinfo_available = false →
      processorName env =
        if env.platform_processor = "" then "Unknown"
        else env.platform_processor) ∧
    (∀ e, env.cpuinfo_available = true →
      env.cpuinfo_brand = Except.error e → processorName env =
        if env.platform_processor = "" then "Unknown"
        else env.platform_processor) := by
  refine ⟨?_, ?_, ?_, ?_⟩
  · simp only [get_cpu_info, vget]
    cases hf : env.cpu_freq <;> rfl
  · intro b h1 h2
    unfold processorName
    rw [h1, h2]
    rfl
  · intro h1
    unfold processorName
    rw [h1]
    rfl
  · intro e h1 h2
    unfold processorName
    rw [h1, h2]
    rfl

/-- C8 witness: with cpuinfo installed and a brand string reported, the
brand string is the processor name. -/
theorem C8_witness : processorName envBrand = "Intel Core i7" :=
  (C8_processor_fallback envBrand).2.1 "Intel Core i7" rfl rfl

/-- C9: the claim states `physical_cores` is an integer or absent, never
present with a null value.  This is false: when psutil cannot determine the
physical core count the key is present and bound to Python `None`. -/
theorem C9_counterexample :
    vget (get_cpu_info envNoCount) "physical_cores" = some Val.vnull := rfl

/-- C9 (amended): `physical_cores` and `logical_cores` are always present,
each holding the non-negative source count when determined and null when
not; `cpu_frequency_mhz` is present exactly when the platform exposes a
clock frequency. -/
theorem C9_amended (env : Env) :
    (∀ n, env.cpu_count_physical = some n →
      vget (get_cpu_info env) "physical_cores" = some (Val.vint n)) ∧
    (env.cpu_count_physical = none →
      vget (get_cpu_info env) "physical_cores" = some Val.vnull) ∧
    (∀ n, env.cpu_count_logical = some n →
      vget (get_cpu_info env) "logical_cores" = some (Val.vint n)) ∧
    (env.cpu_count_logical = none →
      vget (get_cpu_info env) "logical_cores" = some Val.vnull) ∧
    (env.cpu_freq = none →
      vget (get_cpu_info env) "cpu_frequency_mhz" = none) ∧
    (∀ f, env.cpu_freq = some f →
      vget (get_cpu_info env) "cpu_frequency_mhz"
        = some (Val.vnum (round2 f))) := by
  refine ⟨?_, ?_, ?_, ?_, ?_, ?_⟩
  · intro n hn
    simp only [get_cpu_info, vget]
    rw [hn]
    cases env.cpu_freq <;> rfl
  · intro hn
    simp only [get_cpu_info, vget]
    rw [hn]
    cases env.cpu_freq <;> rfl
  · intro n hn
    simp only [get_cpu_info, vget]
    rw [hn]
    cases env.cpu_freq <;> rfl
  · intro hn
    simp only [get_cpu_info, vget]
    rw [hn]
    cases env.cpu_freq <;> rfl
  · intro hf
    simp only [get_cpu_info, vget]
    rw [hf]
    rfl
  · intro f hf
    simp only [get_cpu_info, vget]
    rw [hf]
    rfl

/-- C9 witness: on the base environment the physical core count is the
integer 4. -/
theorem C9_witness :
    vget (get_cpu_info baseEnv) "physical_cores" = some (Val.vint 4) :=
  (C9_amended baseEnv).1 4 rfl

/-- C10: whenever the frequency key is present its value is the
platform-reported frequency rounded to exactly two decimal places: an
integer multiple of 1/100 within half a hundredth of the reported value. -/
theorem C10_freq_rounding (env : Env) (f : ℚ) (h : env.cpu_freq = some f) :
    vget (get_cpu_info env) "cpu_frequency_mhz"
      = some (Val.vnum (round2 f)) ∧
    (∃ k : ℤ, round2 f = (k : ℚ) / 100) ∧ |round2 f - f| ≤ 1 / 200 := by
  refine ⟨?_, ⟨roundHalfEven (100 * f), rfl⟩, round2_abs_le f⟩
  simp only [get_cpu_info, vget]
  rw [h]
  rfl

/-- C10 witness: the base environment reports 2400 MHz. -/
theorem C10_witness :
    vget (get_cpu_info baseEnv) "cpu_frequency_mhz"
      = some (Val.vnum (round2 2400)) :=
  (C10_freq_rounding baseEnv 2400 rfl).1
